import Mathlib

/-!
Shallow embedding of `src/acl/models.py` from Adarnof/Adarnauth-ACL.

The Python module defines enum-like helper classes `AclLevel`, `AclRole` and
`AclResponse`, the Django models `AccessList`, `AccessListMembership` and the
mixin `AclProfileMixin`.  Fallible Python operations (dictionary lookups that
can raise KeyError, `int()` on objects without `__int__`, undefined global
names, Django queryset `.get`) are embedded as `Except PyError` computations,
evaluated in the same statement order as the source.
-/

namespace AdarnauthACL

/-- Python exception values that the embedded code can raise. -/
inductive PyError where
  | nameError (n : String)
  | typeError (msg : String)
  | keyError (k : String)
  | doesNotExist
  | multipleObjectsReturned
  deriving DecidableEq

/-! ### Naming constants (models.py lines 11-20) -/

def ADMIN : String := "Admin"

def MANAGER : String := "Manager"

def MEMBER : String := "Member"

def BLOCKED : String := "Blocked"

def NONE : String := "None"

def CHARACTER_LEVEL : String := "Character"

def CORP_LEVEL : String := "Corp"

def ALLIANCE_LEVEL : String := "Alliance"

def FACTION_LEVEL : String := "Faction"

def PUBLIC_LEVEL : String := "Public"

/-! ### AclLevel (models.py lines 24-56)

`AclLevel.__init__` merely stores the name string; no validation happens at
construction.  `__int__` looks the name up in `LEVEL_MAP`, raising `KeyError`
when the name is absent. -/

/-- Constructor `AclLevel(level)` stores the name unvalidated (`self.level = level`). -/
structure AclLevel where
  level : String
  deriving DecidableEq

/-- The dict `AclLevel.LEVEL_MAP`. -/
def LEVEL_MAP : List (String × Int) :=
  [(CHARACTER_LEVEL, 5), (CORP_LEVEL, 4), (ALLIANCE_LEVEL, 3),
   (FACTION_LEVEL, 2), (PUBLIC_LEVEL, 1), (NONE, 0)]

/-- Method `AclLevel.__int__`: `self.LEVEL_MAP[self.level]`, raising `KeyError` when
the stored name is not a key of the map. -/
def AclLevel.toIntE (l : AclLevel) : Except PyError Int :=
  match LEVEL_MAP.lookup l.level with
  | some n => Except.ok n
  | none => Except.error (PyError.keyError l.level)

/-- Method `AclLevel.__eq__`: `int(self) == int(other)` (both sides converted to rank
first; a missing name raises before any boolean is produced). -/
def AclLevel.eqE (a b : AclLevel) : Except PyError Bool := do
  let x ← a.toIntE
  let y ← b.toIntE
  pure (x == y)

/-- Method `AclLevel.__lt__`: `int(self) < int(other)`. -/
def AclLevel.ltE (a b : AclLevel) : Except PyError Bool := do
  let x ← a.toIntE
  let y ← b.toIntE
  pure (x < y)

/-! ### AclRole (models.py lines 58-89) -/

/-- Constructor `AclRole(role)` stores the name unvalidated (`self.role = role`). -/
structure AclRole where
  role : String
  deriving DecidableEq

/-- The dict `AclRole.ROLE_MAP`. -/
def ROLE_MAP : List (String × Int) :=
  [(BLOCKED, 4), (ADMIN, 3), (MANAGER, 2), (MEMBER, 1), (NONE, 0)]

/-- Method `AclRole.__int__`: `self.ROLE_MAP[self.role]`, raising `KeyError` when the
stored name is not a key of the map. -/
def AclRole.toIntE (r : AclRole) : Except PyError Int :=
  match ROLE_MAP.lookup r.role with
  | some n => Except.ok n
  | none => Except.error (PyError.keyError r.role)

/-- Method `AclRole.__bool__`: `bool(self.__int__()) and self.__int__() != self.ROLE_MAP[BLOCKED]`,
i.e. the rank is nonzero and differs from the Blocked rank 4. -/
def AclRole.boolE (r : AclRole) : Except PyError Bool := do
  let i ← r.toIntE
  pure (i != 0 && i != 4)

/-- Method `AclRole.__eq__`: `int(self) == int(other)`. -/
def AclRole.eqE (a b : AclRole) : Except PyError Bool := do
  let x ← a.toIntE
  let y ← b.toIntE
  pure (x == y)

/-- Method `AclRole.__lt__`: `int(self) < int(other)`. -/
def AclRole.ltE (a b : AclRole) : Except PyError Bool := do
  let x ← a.toIntE
  let y ← b.toIntE
  pure (x < y)

/-- Method `AclLevel.__eq__` invoked with an `AclRole` argument: Python duck typing
calls `int(other)` through `AclRole.__int__`, so a Level and a Role are
compared purely by rank. -/
def AclLevel.eqRoleE (a : AclLevel) (b : AclRole) : Except PyError Bool := do
  let x ← a.toIntE
  let y ← b.toIntE
  pure (x == y)

/-! ### Module-level enum instances (models.py lines 91-103) -/

def character_level : AclLevel := ⟨CHARACTER_LEVEL⟩

def corp_level : AclLevel := ⟨CORP_LEVEL⟩

def alliance_level : AclLevel := ⟨ALLIANCE_LEVEL⟩

def faction_level : AclLevel := ⟨FACTION_LEVEL⟩

def public_level : AclLevel := ⟨PUBLIC_LEVEL⟩

def none_level : AclLevel := ⟨NONE⟩

def blocked_role : AclRole := ⟨BLOCKED⟩

def admin_role : AclRole := ⟨ADMIN⟩

def manager_role : AclRole := ⟨MANAGER⟩

def member_role : AclRole := ⟨MEMBER⟩

def none_role : AclRole := ⟨NONE⟩

/-! ### AclResponse (models.py lines 104-132)

`AclResponse` defines `__init__`, `__bool__`, `__str__`, `__eq__` and
`__lt__` but no `__int__`, so the calls `int(other)` and `int(self)` inside
`__lt__` raise `TypeError` for every pair of responses. -/

/-- Constructor `AclResponse(level, role)`. -/
structure AclResponse where
  level : AclLevel
  role : AclRole
  deriving DecidableEq

/-- Calling `int(r)` on an `AclResponse`: the class defines no `__int__`, so Python
raises `TypeError: int() argument must be a string or a number`. -/
def AclResponse.toIntE (_ : AclResponse) : Except PyError Int :=
  Except.error (PyError.typeError "int() argument must be a string or a number, not AclResponse")

/-- Method `AclResponse.__bool__`: `bool(self.role)`. -/
def AclResponse.boolE (r : AclResponse) : Except PyError Bool :=
  r.role.boolE

/-- Method `AclResponse.__eq__`: `(self.level, self.role) == (other.level, other.role)`.
Python 2 tuple equality compares the first components (by rank via
`AclLevel.__eq__`); only when they are equal does it compare the second. -/
def AclResponse.eqE (a b : AclResponse) : Except PyError Bool := do
  let le ← a.level.eqE b.level
  if le then a.role.eqE b.role
  else pure false

/-- The tuple comparison `(self.level, self.role) < (other.level, other.role)`
from the else branch of `AclResponse.__lt__` (unreachable in the source since
`int(other)` raises first): lexicographic on (level rank, role rank). -/
def AclResponse.tupleLtE (a b : AclResponse) : Except PyError Bool := do
  let le ← a.level.eqE b.level
  if le then a.role.ltE b.role
  else a.level.ltE b.level

/-- Method `AclResponse.__lt__` (models.py lines 127-132):

```
if int(other) and not int(self):
    return True
else:
    return (self.level, self.role) < (other.level, other.role)
```

`int(other)` is evaluated first and raises `TypeError` because `AclResponse`
has no `__int__`; the guard and the tuple comparison below it are therefore
never reached for any pair of responses. -/
def AclResponse.ltE (a b : AclResponse) : Except PyError Bool := do
  let io ← b.toIntE
  if io != 0 then do
    let is ← a.toIntE
    if is == 0 then pure true
    else AclResponse.tupleLtE a b
  else AclResponse.tupleLtE a b

/-- Module constant `empty_response = AclResponse(none_level, none_role)` (models.py line 135). -/
def empty_response : AclResponse := ⟨none_level, none_role⟩

/-! ### Entities and memberships (models.py lines 137-160, 211-231) -/

/-- Model `eveonline.models.BaseEntity`: only the `id` field is read by the resolver
(`check_entity_role` filters on `entity.id`; `check_membership` builds
`BaseEntity(id=...)` values). -/
structure BaseEntity where
  id : Nat
  deriving DecidableEq

/-- Model `AccessListMembership`: a row as the resolver reads it: the entity id of the
foreign key and the stored role name (the `access_list` foreign key is
implicit, each `AccessList` carrying its own `membership_set`). -/
structure AccessListMembership where
  entityId : Nat
  role : String
  deriving DecidableEq

/-- Model `AccessList`: `name`, `description`, the `public` flag, and the reverse
relation `membership_set`. -/
structure AccessList where
  name : String
  description : String
  public : Bool
  membership_set : List AccessListMembership
  deriving DecidableEq

/-- The subject handed to `check_membership`/`check_access`.  `isUser` is
`isinstance(entity, User)`; `userCheckId` is
`getattr(entity, ACL_USER_CHECK_ID_FIELD)`; the four affiliation fields are
`none` when the attribute is absent (`hasattr` false) and `some v` when
present with value `v` (Python then also tests truthiness, so `some 0` is
skipped like an absent attribute). -/
structure Subject where
  id : Nat
  isUser : Bool
  userCheckId : Nat
  character_id : Option Nat
  corporation_id : Option Nat
  alliance_id : Option Nat
  faction_id : Option Nat
  deriving DecidableEq

/-- Django `queryset.get(entity__id=eid)`: raises `DoesNotExist` for zero
matching rows, returns the row when exactly one matches, raises
`MultipleObjectsReturned` for more than one. -/
def qsGet (ms : List AccessListMembership) (eid : Nat) :
    Except PyError AccessListMembership :=
  match ms.filter (fun m => m.entityId == eid) with
  | [] => Except.error PyError.doesNotExist
  | [m] => Except.ok m
  | _ :: _ :: _ => Except.error PyError.multipleObjectsReturned

/-- Method `AccessList.check_entity_role` (models.py lines 167-175):

```
try:
    membership = self.membership_set.get(entity__id=entity.id)
    return AclRole(membership.role)
except AccessListMembership.DoesNotExist:
    return none_role
```

Only `DoesNotExist` is caught; `MultipleObjectsReturned` would propagate (the
`unique_together` constraint on `(entity, access_list)` rules that out). -/
def AccessList.check_entity_role (lst : AccessList) (entity : BaseEntity) :
    Except PyError AclRole :=
  match qsGet lst.membership_set entity.id with
  | Except.ok m => Except.ok (AclRole.mk m.role)
  | Except.error PyError.doesNotExist => Except.ok none_role
  | Except.error e => Except.error e

/-- Python `list.sort` compares elements with `__lt__`; a list of length at
most one is returned unchanged without any comparison.  Modelled as an
insertion sort into descending order (`reverse=True`) over the fallible
comparator — since `AclResponse.ltE` raises on every call, any list with two
or more elements makes the sort raise, and the precise descending order is
observable only for lists needing no comparison. -/
def pyInsertDesc (x : AclResponse) :
    List AclResponse → Except PyError (List AclResponse)
  | [] => Except.ok [x]
  | y :: ys => do
    let b ← AclResponse.ltE x y
    if b then do
      let rest ← pyInsertDesc x ys
      pure (y :: rest)
    else
      pure (x :: y :: ys)

/-- Statement `list.sort(reverse=True)` on a list of responses (see `pyInsertDesc`). -/
def pySortDesc : List AclResponse → Except PyError (List AclResponse)
  | [] => Except.ok []
  | x :: xs => do
    let s ← pySortDesc xs
    pyInsertDesc x s

/-- Method `AccessList.check_membership` (models.py lines 177-209), statement by
statement.  The first executable statement after `User = get_user_model()` is
`roles = [none_response]`, and the module defines `empty_response` but no
`none_response`, so every call raises `NameError` there; everything that
follows is dead code.  The dead continuation is still modelled faithfully:

* `isinstance(entity, User) or issubclass(entity, User)` raises `TypeError`
  for a non-User instance, because `issubclass` requires a class argument;
* the User branch assigns `parial_entity` but reads `partial_entity`
  (`NameError`);
* the corporation branch reads `corporation_level`, while the module defines
  `corp_level` (`NameError`), after performing the role lookup;
* `return roles.sort(reverse=True)[0]` runs the sort (whose comparisons
  raise `TypeError`, see `AclResponse.ltE`) and would then subscript the
  `None` that `list.sort` returns (`TypeError`). -/
def AccessList.check_membership (lst : AccessList) (entity : Subject) :
    Except PyError AclResponse := do
  -- User = get_user_model()
  -- roles = [none_response]
  let roles ← (Except.error (PyError.nameError "none_response") :
    Except PyError (List AclResponse))
  -- if isinstance(entity, User) or issubclass(entity, User):
  let cond ← if entity.isUser then pure true
    else (Except.error (PyError.typeError "issubclass() arg 1 must be a class") :
      Except PyError Bool)
  let roles ← if cond then do
      -- parial_entity = BaseEntity(id=getattr(entity, ACL_USER_CHECK_ID_FIELD))
      let _parialEntity : BaseEntity := ⟨entity.userCheckId⟩
      -- roles.append(AclResponse(character_level, role=self.check_entity_role(partial_entity)))
      let pe ← (Except.error (PyError.nameError "partial_entity") :
        Except PyError BaseEntity)
      let r ← lst.check_entity_role pe
      pure (roles ++ [AclResponse.mk character_level r])
    else do
      -- roles.append(AclResponse(character_level, role=self.check_entity_role(entity)))
      let r ← lst.check_entity_role ⟨entity.id⟩
      pure (roles ++ [AclResponse.mk character_level r])
  -- if hasattr(entity, 'character_id') and entity.character_id:
  let roles ← match entity.character_id with
    | some cid =>
      if cid != 0 then do
        let r ← lst.check_entity_role ⟨cid⟩
        pure (roles ++ [AclResponse.mk character_level r])
      else pure roles
    | none => pure roles
  -- if hasattr(entity, 'corporation_id') and entity.corporation_id:
  let roles ← match entity.corporation_id with
    | some cid =>
      if cid != 0 then do
        let r ← lst.check_entity_role ⟨cid⟩
        -- roles.append(AclResponse(corporation_level, entity_role))
        let lvl ← (Except.error (PyError.nameError "corporation_level") :
          Except PyError AclLevel)
        pure (roles ++ [AclResponse.mk lvl r])
      else pure roles
    | none => pure roles
  -- if hasattr(entity, 'alliance_id') and entity.alliance_id:
  let roles ← match entity.alliance_id with
    | some aid =>
      if aid != 0 then do
        let r ← lst.check_entity_role ⟨aid⟩
        pure (roles ++ [AclResponse.mk alliance_level r])
      else pure roles
    | none => pure roles
  -- if hasattr(entity, 'faction_id') and entity.faction_id:
  let roles ← match entity.faction_id with
    | some fid =>
      if fid != 0 then do
        let r ← lst.check_entity_role ⟨fid⟩
        pure (roles ++ [AclResponse.mk faction_level r])
      else pure roles
    | none => pure roles
  -- if self.public: roles.append(AclResponse(public_level, member_role))
  let roles := if lst.public then roles ++ [AclResponse.mk public_level member_role]
    else roles
  -- return roles.sort(reverse=True)[0]
  let _sorted ← pySortDesc roles
  (Except.error (PyError.typeError "NoneType object is not subscriptable") :
    Except PyError AclResponse)

/-- Model `AclProfileMixin`: the resolver reads only the `can_access` relation. -/
structure AclProfileMixin where
  can_access : List AccessList
  deriving DecidableEq

/-- Method `AclProfileMixin.check_access` (models.py lines 244-252):

```
access_list = [x.check_membership(entity) for x in self.can_access.all()]
access_list.append(empty_response)
access_list.sort(reverse=True)
return bool(access_list[0])
```

Here `sort` is used correctly as a statement (unlike in `check_membership`),
so with zero attached lists the singleton `[empty_response]` sorts without a
single comparison and the result is `bool(empty_response)`. -/
def AclProfileMixin.check_access (p : AclProfileMixin) (entity : Subject) :
    Except PyError Bool := do
  let access_list ← p.can_access.mapM (fun x => x.check_membership entity)
  let access_list := access_list ++ [empty_response]
  let sorted ← pySortDesc access_list
  match sorted with
  | [] => (Except.error (PyError.typeError "index out of range") :
      Except PyError Bool)
  | r :: _ => r.boolE

/-! ### Helper lemmas -/

/-- Under the `unique_together` constraint (no two rows of a membership set
share an entity id), filtering on an id held by a member `m` yields `[m]`. -/
theorem filter_entityId_eq_single (ms : List AccessListMembership) (eid : Nat)
    (m : AccessListMembership)
    (hu : (ms.map (fun x => x.entityId)).Nodup)
    (hm : m ∈ ms) (hid : m.entityId = eid) :
    ms.filter (fun x => x.entityId == eid) = [m] := by
  induction ms with
  | nil => cases hm
  | cons a as ih =>
    simp only [List.map_cons, List.nodup_cons] at hu
    obtain ⟨ha, hu⟩ := hu
    rcases List.mem_cons.mp hm with rfl | hm
    · have hnil : as.filter (fun x => x.entityId == eid) = [] := by
        rw [List.filter_eq_nil_iff]
        intro x hx
        simp only [beq_iff_eq]
        intro hxe
        exact ha (hid ▸ hxe ▸ List.mem_map_of_mem (fun y => y.entityId) hx)
      rw [List.filter_cons_of_pos (by simpa using hid), hnil]
    · have hane : (a.entityId == eid) = false := by
        simp only [beq_eq_false_iff_ne, ne_eq]
        intro hae
        exact ha (hae ▸ hid ▸ List.mem_map_of_mem (fun y => y.entityId) hm)
      rw [List.filter_cons_of_neg (by simp [hane])]
      exact ih hu hm

/-- Filtering on an id that no row carries yields the empty list. -/
theorem filter_entityId_eq_nil (ms : List AccessListMembership) (eid : Nat)
    (h : ∀ m ∈ ms, m.entityId ≠ eid) :
    ms.filter (fun x => x.entityId == eid) = [] := by
  rw [List.filter_eq_nil_iff]
  intro x hx
  simpa using h x hx

/-! ### Concrete instances used by the claim theorems -/

/-- Scenario input: a non-public list holding a Manager row for entity 11. -/
def lstOps : AccessList := ⟨"ops", "an ops list", false, [⟨11, "Manager"⟩]⟩

/-- Scenario input: the bare entity 11. -/
def subjOps : Subject := ⟨11, false, 0, none, none, none, none⟩

/-- Scenario A input: a list holding Member for character 10, Admin for corp 20. -/
def lstA : AccessList := ⟨"A", "scenario A", false, [⟨10, "Member"⟩, ⟨20, "Admin"⟩]⟩

/-- Scenario A input: a User subject whose check-id is 10 and whose
corporation id is 20. -/
def subjA : Subject := ⟨10, true, 10, none, some 20, none, none⟩

/-- Scenario B input: a public list holding only a Blocked row for corp 30. -/
def lstB : AccessList := ⟨"B", "scenario B", true, [⟨30, "Blocked"⟩]⟩

/-- Scenario B input: a bare subject whose only affiliation is corp 30. -/
def subjB : Subject := ⟨3, false, 0, none, some 30, none, none⟩

/-- Scenario B input: a profile carrying only the public list of scenario B. -/
def profileB : AclProfileMixin := ⟨[lstB]⟩

/-- Input for the floor claim: a non-public list with no memberships at all. -/
def lstEmpty : AccessList := ⟨"E", "no rows", false, []⟩

/-- Input for the floor claim: a bare subject with no affiliations. -/
def subjEmpty : Subject := ⟨42, false, 0, none, none, none, none⟩

/-- The response (Public, Member), used by the trichotomy counterexample. -/
def respPublicMember : AclResponse := ⟨public_level, member_role⟩

/-- Witness input for the membership-lookup claim. -/
def lstW : AccessList := ⟨"W", "witness", false, [⟨7, "Member"⟩, ⟨8, "Admin"⟩]⟩

/-! ### Claim theorems -/

/-- C1.  The claim says `check_membership` returns the maximum Response of the
candidate sequence.  In fact every call raises: the first executable statement
`roles = [none_response]` references a name the module never defines (the
module defines `empty_response`), so for every access list and every subject
the per-list resolution raises `NameError` instead of returning any Response.
Had the seed name resolved, the remaining slips (`partial_entity`,
`corporation_level`, comparisons through a missing `__int__`, and subscripting
the `None` returned by `list.sort`) would still prevent a value from being
returned. -/
theorem check_membership_always_raises (lst : AccessList) (e : Subject) :
    lst.check_membership e = Except.error (PyError.nameError "none_response") :=
  rfl

/-- C2.  Scenario A evaluated on the code: the subject holds a direct
Character-level Member membership (check-id 10) and a Corp-level Admin
membership (corp 20) on list A, and the claim says resolution returns the
Character-level Member Response.  The code instead raises `NameError` on the
undefined seed name `none_response` before performing any lookup. -/
theorem scenarioA_check_membership_raises :
    lstA.check_membership subjA = Except.error (PyError.nameError "none_response") :=
  rfl

/-- C3.  Scenario B evaluated on the code: the subject holds only a Corp-level
Blocked membership on a public list, and the claim says resolution returns
(Corp, Blocked) and `check_access` returns false.  `check_access` calls
`check_membership` for the attached list, which raises `NameError` on the
undefined name `none_response`, so the profile check raises instead of
returning a boolean. -/
theorem scenarioB_check_access_raises :
    profileB.check_access subjB = Except.error (PyError.nameError "none_response") :=
  rfl

/-- C4.  The claim says Response comparison applies a granting-role guard and
otherwise compares (Level rank, Role rank) lexicographically.  The code
evaluates `int(other)` first, and `AclResponse` defines no `__int__`, so every
comparison of two Responses raises `TypeError` and neither the guard nor the
tuple comparison is ever reached. -/
theorem response_lt_always_raises (a b : AclResponse) :
    AclResponse.ltE a b =
      Except.error (PyError.typeError
        "int() argument must be a string or a number, not AclResponse") :=
  rfl

/-- C5.  The claim says exactly one of `a < b`, `a == b`, `b < a` holds for
every pair of Responses.  At the concrete pair a = empty_response and
b = (Public, Member), equality returns False while both strict comparisons
raise `TypeError` (missing `__int__`), so none of the three relations holds
and the comparison is not a strict total order on the code. -/
theorem response_trichotomy_fails :
    AclResponse.eqE empty_response respPublicMember = Except.ok false ∧
    AclResponse.ltE empty_response respPublicMember =
      Except.error (PyError.typeError
        "int() argument must be a string or a number, not AclResponse") ∧
    AclResponse.ltE respPublicMember empty_response =
      Except.error (PyError.typeError
        "int() argument must be a string or a number, not AclResponse") :=
  ⟨rfl, rfl, rfl⟩

/-- C6.  The claim says the candidate sequence always contains
`empty_response` as a floor element.  The seeding statement is
`roles = [none_response]`, and `none_response` is not a name the module
defines, so even for a membership-free subject on a non-public list the
function raises `NameError` at the seed instead of producing a one-element
floor sequence. -/
theorem floor_seed_raises :
    lstEmpty.check_membership subjEmpty =
      Except.error (PyError.nameError "none_response") :=
  rfl

/-- C7.  `check_access` on a profile with zero attached access lists returns
false: the comprehension produces no per-list results (so the broken
`check_membership` is never called), the appended `empty_response` floor is
sorted without a single comparison, and `bool(empty_response)` is false
because the None role has rank 0. -/
theorem check_access_no_lists_false (e : Subject) :
    AclProfileMixin.check_access ⟨[]⟩ e = Except.ok false :=
  rfl

/-- C8.  Under the `unique_together` uniqueness invariant on membership rows,
`check_entity_role` returns the stored Role (as an `AclRole` built from the
stored name) when a row for the entity exists, and returns `none_role`
without raising when no row exists. -/
theorem check_entity_role_lookup (lst : AccessList) (eid : Nat)
    (hu : (lst.membership_set.map (fun x => x.entityId)).Nodup) :
    (∀ m, m ∈ lst.membership_set → m.entityId = eid →
      lst.check_entity_role ⟨eid⟩ = Except.ok (AclRole.mk m.role)) ∧
    ((∀ m, m ∈ lst.membership_set → m.entityId ≠ eid) →
      lst.check_entity_role ⟨eid⟩ = Except.ok none_role) := by
  constructor
  · intro m hm hid
    unfold AccessList.check_entity_role qsGet
    rw [filter_entityId_eq_single lst.membership_set eid m hu hm hid]
  · intro h
    unfold AccessList.check_entity_role qsGet
    rw [filter_entityId_eq_nil lst.membership_set eid h]

/-- Witness for C8: on a concrete two-row list, entity 7 resolves to its
stored Member role and the absent entity 9 resolves to `none_role`. -/
theorem check_entity_role_lookup_witness :
    lstW.check_entity_role ⟨7⟩ = Except.ok (AclRole.mk "Member") ∧
    lstW.check_entity_role ⟨9⟩ = Except.ok none_role := by
  constructor
  · exact (check_entity_role_lookup lstW 7 (by decide)).1 ⟨7, "Member"⟩
      (by decide) rfl
  · exact (check_entity_role_lookup lstW 9 (by decide)).2 (by decide)

/-- C9 counterexample.  The claim says constructing a Level or Role from a
name outside the enumeration fails at construction time.  Constructing from
the unmapped name Bogus succeeds and stores the name unchanged (the
constructors perform no validation); the `KeyError` surfaces only later, at
rank conversion. -/
theorem invalid_name_construction_succeeds :
    (AclLevel.mk "Bogus").level = "Bogus" ∧
    (AclRole.mk "Bogus").role = "Bogus" ∧
    LEVEL_MAP.lookup "Bogus" = none ∧
    ROLE_MAP.lookup "Bogus" = none ∧
    AclLevel.toIntE (AclLevel.mk "Bogus") =
      Except.error (PyError.keyError "Bogus") ∧
    AclRole.toIntE (AclRole.mk "Bogus") =
      Except.error (PyError.keyError "Bogus") :=
  ⟨rfl, rfl, rfl, rfl, rfl, rfl⟩

/-- C9 amended.  Construction from an unrecognized name succeeds without
validation; the failure happens at rank-conversion time: for every name
outside both fixed maps, `__int__` on the constructed Level and on the
constructed Role raises `KeyError` carrying that name. -/
theorem invalid_name_rank_conversion_raises (s : String)
    (hl : LEVEL_MAP.lookup s = none) (hr : ROLE_MAP.lookup s = none) :
    AclLevel.toIntE (AclLevel.mk s) = Except.error (PyError.keyError s) ∧
    AclRole.toIntE (AclRole.mk s) = Except.error (PyError.keyError s) := by
  constructor
  · unfold AclLevel.toIntE
    rw [hl]
  · unfold AclRole.toIntE
    rw [hr]

/-- Witness for the amended C9 at the concrete unmapped name Bogus. -/
theorem invalid_name_rank_conversion_raises_witness :
    AclLevel.toIntE (AclLevel.mk "Bogus") =
      Except.error (PyError.keyError "Bogus") ∧
    AclRole.toIntE (AclRole.mk "Bogus") =
      Except.error (PyError.keyError "Bogus") :=
  invalid_name_rank_conversion_raises "Bogus" rfl rfl

/-- C10 counterexample.  The claim says any two `AclLevel` instances
constructed from the same name are equal.  For the unmapped name Bogus the
two instances are not equal under `__eq__`: the comparison raises `KeyError`
instead of returning True, because `__eq__` converts both sides to ranks. -/
theorem same_invalid_name_eq_raises :
    AclLevel.eqE (AclLevel.mk "Bogus") (AclLevel.mk "Bogus") =
      Except.error (PyError.keyError "Bogus") :=
  rfl

/-- C10 amended.  Equality and ordering on Levels and on Roles are determined
solely by integer rank, never by name identity: for any names carrying ranks
in their maps (each hypothesis independent, so every Level name and every
Role name of the enumerations is covered, Character included), two instances
constructed from the same name compare equal, `__eq__` between two Levels or
two Roles returns exactly whether the ranks agree, `__lt__` returns exactly
the strict rank comparison, and a Level compared against a Role under
`__eq__` (duck typing through `__int__`) returns whether their ranks
coincide, for example Corp (rank 4) equals Blocked (rank 4).  A name with no
rank makes `__eq__` raise `KeyError` instead. -/
theorem rank_based_equality (s u t v : String) (a b c d : Int)
    (hs : LEVEL_MAP.lookup s = some a) (hu : LEVEL_MAP.lookup u = some b)
    (ht : ROLE_MAP.lookup t = some c) (hv : ROLE_MAP.lookup v = some d) :
    AclLevel.eqE (AclLevel.mk s) (AclLevel.mk s) = Except.ok true ∧
    AclRole.eqE (AclRole.mk t) (AclRole.mk t) = Except.ok true ∧
    AclLevel.eqE (AclLevel.mk s) (AclLevel.mk u) = Except.ok (a == b) ∧
    AclLevel.ltE (AclLevel.mk s) (AclLevel.mk u) = Except.ok (decide (a < b)) ∧
    AclRole.eqE (AclRole.mk t) (AclRole.mk v) = Except.ok (c == d) ∧
    AclRole.ltE (AclRole.mk t) (AclRole.mk v) = Except.ok (decide (c < d)) ∧
    AclLevel.eqRoleE (AclLevel.mk s) (AclRole.mk t) = Except.ok (a == c) := by
  refine ⟨?_, ?_, ?_, ?_, ?_, ?_, ?_⟩
  · simp [AclLevel.eqE, AclLevel.toIntE, hs, Bind.bind, Except.bind, Pure.pure, Except.pure]
  · simp [AclRole.eqE, AclRole.toIntE, ht, Bind.bind, Except.bind, Pure.pure, Except.pure]
  · simp [AclLevel.eqE, AclLevel.toIntE, hs, hu, Bind.bind, Except.bind, Pure.pure, Except.pure]
  · simp [AclLevel.ltE, AclLevel.toIntE, hs, hu, Bind.bind, Except.bind, Pure.pure, Except.pure]
  · simp [AclRole.eqE, AclRole.toIntE, ht, hv, Bind.bind, Except.bind, Pure.pure, Except.pure]
  · simp [AclRole.ltE, AclRole.toIntE, ht, hv, Bind.bind, Except.bind, Pure.pure, Except.pure]
  · simp [AclLevel.eqRoleE, AclLevel.toIntE, AclRole.toIntE, hs, ht,
      Bind.bind, Except.bind, Pure.pure, Except.pure]

/-- Witness for the amended C10: the Character level (rank 5) equals itself
even though no Role shares its rank, the Blocked role equals itself, the Corp
level (rank 4) equals the Blocked role (rank 4) across types, and the Public
level (rank 1) is strictly below the Character level (rank 5). -/
theorem rank_based_equality_witness :
    AclLevel.eqE (AclLevel.mk "Character") (AclLevel.mk "Character") =
      Except.ok true ∧
    AclRole.eqE (AclRole.mk "Blocked") (AclRole.mk "Blocked") = Except.ok true ∧
    AclLevel.eqRoleE (AclLevel.mk "Corp") (AclRole.mk "Blocked") =
      Except.ok true ∧
    AclLevel.ltE (AclLevel.mk "Public") (AclLevel.mk "Character") =
      Except.ok true := by
  have h1 := rank_based_equality "Character" "Corp" "Blocked" "Member"
    5 4 4 1 rfl rfl rfl rfl
  have h2 := rank_based_equality "Corp" "Public" "Blocked" "None"
    4 1 4 0 rfl rfl rfl rfl
  have h3 := rank_based_equality "Public" "Character" "Member" "Blocked"
    1 5 1 4 rfl rfl rfl rfl
  refine ⟨h1.1, h1.2.1, ?_, ?_⟩
  · simpa using h2.2.2.2.2.2.2
  · simpa using h3.2.2.2.1

end AdarnauthACL
